import Mathlib

/-!
Verification of the course-registration API (fastapi_course_reg).

The application keeps three entity tables (Student, Course, Registration) in a
relational store accessed through create / find_unique / find_first / find_many
operations, and exposes five HTTP operations: create/list students, create/list
courses, and register a student for a course.  We embed the store as an explicit
`DB` state threaded through each handler; each handler is translated from its
router function and returns the HTTP outcome (`Except HTTPException α`) together
with the store state after the request.
-/

/-- A Student row: numeric id (store-assigned), name, email. -/
structure Student where
  id : Nat
  name : String
  email : String
deriving Repr, DecidableEq

/-- A Course row: numeric id (store-assigned), title, code, units. -/
structure Course where
  id : Nat
  title : String
  code : String
  units : Int
deriving Repr, DecidableEq

/-- A Registration row: numeric id, references to one Student and one Course by
id, and a store-assigned creation timestamp. -/
structure Registration where
  id : Nat
  studentId : Nat
  courseId : Nat
  registeredAt : Nat
deriving Repr, DecidableEq

/-- The data store: the three tables, the auto-increment counters for their ids,
and the server clock used for `registeredAt`. -/
structure DB where
  students : List Student
  courses : List Course
  registrations : List Registration
  nextStudentId : Nat
  nextCourseId : Nat
  nextRegistrationId : Nat
  now : Nat
deriving Repr, DecidableEq

/-- The store before any request: empty tables, counters at 1. -/
def DB.empty : DB :=
  { students := [], courses := [], registrations := [],
    nextStudentId := 1, nextCourseId := 1, nextRegistrationId := 1, now := 0 }

/-- `db.student.find_unique(where=\x7b"id": i\x7d)`. -/
def DB.studentFindUniqueId (db : DB) (i : Nat) : Option Student :=
  db.students.find? (fun s => s.id == i)

/-- `db.student.find_unique(where=\x7b"email": e\x7d)`. -/
def DB.studentFindUniqueEmail (db : DB) (e : String) : Option Student :=
  db.students.find? (fun s => s.email == e)

/-- `db.course.find_unique(where=\x7b"id": i\x7d)`. -/
def DB.courseFindUniqueId (db : DB) (i : Nat) : Option Course :=
  db.courses.find? (fun c => c.id == i)

/-- `db.registration.find_first(where=\x7b"studentId": sid, "courseId": cid\x7d)`. -/
def DB.registrationFindFirst (db : DB) (sid cid : Nat) : Option Registration :=
  db.registrations.find? (fun r => r.studentId == sid && r.courseId == cid)

/-- `db.student.create(data=...)`: inserts a row with the next free id. -/
def DB.studentCreate (db : DB) (name email : String) : Student × DB :=
  let s : Student := { id := db.nextStudentId, name := name, email := email }
  (s, { db with students := db.students ++ [s],
                nextStudentId := db.nextStudentId + 1 })

/-- `db.course.create(data=...)`: inserts a row with the next free id. -/
def DB.courseCreate (db : DB) (title code : String) (units : Int) : Course × DB :=
  let c : Course := { id := db.nextCourseId, title := title, code := code, units := units }
  (c, { db with courses := db.courses ++ [c],
                nextCourseId := db.nextCourseId + 1 })

/-- `db.registration.create(data=...)`: inserts a row with the next free id and
the server-assigned timestamp. -/
def DB.registrationCreate (db : DB) (sid cid : Nat) : Registration × DB :=
  let r : Registration :=
    { id := db.nextRegistrationId, studentId := sid, courseId := cid,
      registeredAt := db.now }
  (r, { db with registrations := db.registrations ++ [r],
                nextRegistrationId := db.nextRegistrationId + 1 })

/-- `db.student.find_many()`. -/
def DB.studentFindMany (db : DB) : List Student := db.students

/-- `db.course.find_many()`. -/
def DB.courseFindMany (db : DB) : List Course := db.courses

/-- Request body of POST /students/ after validation (schemas/student.py,
`StudentCreate`). -/
structure StudentCreate where
  name : String
  email : String
deriving Repr, DecidableEq

/-- Request body of POST /courses/ (schemas/course.py, `CourseCreate`). -/
structure CourseCreate where
  title : String
  code : String
  units : Int
deriving Repr, DecidableEq

/-- Request body of POST /registrations/ (schemas/registration.py,
`RegistrationCreate`). -/
structure RegistrationCreate where
  student_id : Nat
  course_id : Nat
deriving Repr, DecidableEq

/-- An HTTP error raised by a handler, as in fastapi's HTTPException. -/
structure HTTPException where
  status_code : Nat
  detail : String
deriving Repr, DecidableEq

/-- Wire shape of a Student response (schemas/student.py, `StudentOut`):
the `registeredCourses` field is optional in the schema (`none` = omitted/null),
and when present holds the flattened list of course records, each of which the
store include may in principle fail to resolve (hence `Option Course`). -/
structure StudentOut where
  id : Nat
  name : String
  email : String
  registeredCourses : Option (List (Option Course))
deriving Repr, DecidableEq

/-- Wire shape of a Registration response (schemas/registration.py,
`RegistrationOut`) with the embedded student and course records. -/
structure RegistrationOut where
  id : Nat
  studentId : Nat
  courseId : Nat
  registeredAt : Nat
  student : Option Student
  course : Option Course
deriving Repr, DecidableEq

/-- routers/students.py `_transform_student`: flatten the student's
registration rows (the `registeredCourses` include, with each row's `course`
include) into a plain list of course records. -/
def transform_student (db : DB) (s : Student) : StudentOut :=
  let courses :=
    (db.registrations.filter (fun r => r.studentId == s.id)).map
      (fun r => db.courseFindUniqueId r.courseId)
  { id := s.id, name := s.name, email := s.email,
    registeredCourses := some courses }

/-- routers/students.py `create_student`: reject a duplicate email with 400,
otherwise insert the student and return its transformed record. -/
def create_student (db : DB) (student : StudentCreate) :
    Except HTTPException StudentOut × DB :=
  match db.studentFindUniqueEmail student.email with
  | some _ => (Except.error { status_code := 400, detail := "Email already registered" }, db)
  | none =>
      let p := db.studentCreate student.name student.email
      (Except.ok (transform_student p.2 p.1), p.2)

/-- routers/students.py `list_students`: all students, transformed. -/
def list_students (db : DB) : List StudentOut :=
  db.studentFindMany.map (transform_student db)

/-- routers/courses.py `create_course`: insert unconditionally. -/
def create_course (db : DB) (course : CourseCreate) :
    Except HTTPException Course × DB :=
  let p := db.courseCreate course.title course.code course.units
  (Except.ok p.1, p.2)

/-- routers/courses.py `list_courses`. -/
def list_courses (db : DB) : List Course :=
  db.courseFindMany

/-- routers/registrations.py `register_student`: look up the student and the
course, 404 if either misses; 400 if a registration with the same
(studentId, courseId) pair exists; otherwise insert the registration and
return it with the embedded student and course records. -/
def register_student (db : DB) (data : RegistrationCreate) :
    Except HTTPException RegistrationOut × DB :=
  let student := db.studentFindUniqueId data.student_id
  let course := db.courseFindUniqueId data.course_id
  if student.isNone || course.isNone then
    (Except.error { status_code := 404, detail := "Student or Course not found" }, db)
  else
    match db.registrationFindFirst data.student_id data.course_id with
    | some _ => (Except.error { status_code := 400, detail := "Already registered" }, db)
    | none =>
        let p := db.registrationCreate data.student_id data.course_id
        (Except.ok
          { id := p.1.id, studentId := p.1.studentId, courseId := p.1.courseId,
            registeredAt := p.1.registeredAt,
            student := p.2.studentFindUniqueId data.student_id,
            course := p.2.courseFindUniqueId data.course_id }, p.2)

/-- Email syntax check. Modelled from the spec: the validation library behind
`EmailStr` (schemas/student.py) is an external collaborator not in this
repository; per the spec the email "must match standard email syntax":
exactly one `@` separating a non-empty local part from a non-empty domain
that contains a dot and does not start or end with one. -/
def isValidEmail (s : String) : Bool :=
  match s.toList.dropWhile (fun c => c != '@') with
  | '@' :: d =>
      s.toList.takeWhile (fun c => c != '@') != [] &&
      d != [] && !d.contains '@' && d.contains '.' &&
      d.head? != some '.' && d.getLast? != some '.'
  | _ => false

/-- A raw POST /students/ body before validation: each field may be absent. -/
structure RawStudentInput where
  name : Option String
  email : Option String
deriving Repr, DecidableEq

/-- A raw POST /registrations/ body before validation. -/
structure RawRegistrationInput where
  student_id : Option Nat
  course_id : Option Nat
deriving Repr, DecidableEq

/-- Body validation for `StudentCreate` (schemas/student.py): `name : str`
requires the field to be present (any string, the empty string included);
`email : EmailStr` requires the field to be present and well-formed.
Failures surface as HTTP 422 before any data-store call. -/
def validateStudentCreate (raw : RawStudentInput) : Except HTTPException StudentCreate :=
  match raw.name, raw.email with
  | some n, some e =>
      if isValidEmail e then Except.ok { name := n, email := e }
      else Except.error { status_code := 422, detail := "value is not a valid email address" }
  | _, _ => Except.error { status_code := 422, detail := "Field required" }

/-- Body validation for `RegistrationCreate` (schemas/registration.py): both
integer fields required. -/
def validateRegistrationCreate (raw : RawRegistrationInput) :
    Except HTTPException RegistrationCreate :=
  match raw.student_id, raw.course_id with
  | some s, some c => Except.ok { student_id := s, course_id := c }
  | _, _ => Except.error { status_code := 422, detail := "Field required" }

/-- The whole POST /registrations/ endpoint: body validation (which touches no
store state) followed by the handler. -/
def registrations_endpoint (db : DB) (raw : RawRegistrationInput) :
    Except HTTPException RegistrationOut × DB :=
  match validateRegistrationCreate raw with
  | Except.error e => (Except.error e, db)
  | Except.ok data => register_student db data

/-- One exposed API operation (post-validation bodies for the create ones). -/
inductive Op where
  | createStudent (s : StudentCreate)
  | createCourse (c : CourseCreate)
  | register (r : RegistrationCreate)
  | listStudents
  | listCourses
deriving Repr, DecidableEq

/-- The store state after serving one request (the list operations read only). -/
def stepState (db : DB) : Op → DB
  | Op.createStudent s => (create_student db s).2
  | Op.createCourse c => (create_course db c).2
  | Op.register r => (register_student db r).2
  | Op.listStudents => db
  | Op.listCourses => db

/-- Store states reachable from the empty store by a sequence of requests. -/
inductive Reachable : DB → Prop where
  | empty : Reachable DB.empty
  | step : ∀ {db : DB} (op : Op), Reachable db → Reachable (stepState db op)

/-- The (studentId, courseId) pairs of the registration rows are pairwise
distinct. -/
def regPairsNodup (db : DB) : Prop :=
  (db.registrations.map (fun r => (r.studentId, r.courseId))).Nodup

/-- Every registration row references an existing student and an existing
course. -/
def regRefsExist (db : DB) : Prop :=
  ∀ r ∈ db.registrations,
    (∃ s ∈ db.students, s.id = r.studentId) ∧ (∃ c ∈ db.courses, c.id = r.courseId)

/-- Every stored id is below its table's auto-increment counter. -/
def idsFresh (db : DB) : Prop :=
  (∀ s ∈ db.students, s.id < db.nextStudentId) ∧
  (∀ c ∈ db.courses, c.id < db.nextCourseId)

/-- The store invariant maintained by every request. -/
def StoreInv (db : DB) : Prop :=
  regPairsNodup db ∧ regRefsExist db ∧ idsFresh db

/-- Complete case analysis of `register_student`: either the request fails and
the store is untouched, or every check passed and exactly the one new
registration row is appended. -/
theorem register_student_total (db : DB) (d : RegistrationCreate) :
    (∃ e, register_student db d = (Except.error e, db)) ∨
    ((db.studentFindUniqueId d.student_id).isSome = true ∧
     (db.courseFindUniqueId d.course_id).isSome = true ∧
     db.registrationFindFirst d.student_id d.course_id = none ∧
     register_student db d =
       (Except.ok
         { id := db.nextRegistrationId, studentId := d.student_id,
           courseId := d.course_id, registeredAt := db.now,
           student := db.studentFindUniqueId d.student_id,
           course := db.courseFindUniqueId d.course_id },
        { db with
            registrations := db.registrations ++
              [{ id := db.nextRegistrationId, studentId := d.student_id,
                 courseId := d.course_id, registeredAt := db.now }],
            nextRegistrationId := db.nextRegistrationId + 1 })) := by
  cases hs : db.studentFindUniqueId d.student_id with
  | none =>
    exact Or.inl ⟨{ status_code := 404, detail := "Student or Course not found" },
      by simp [register_student, hs]⟩
  | some st =>
    cases hc : db.courseFindUniqueId d.course_id with
    | none =>
      exact Or.inl ⟨{ status_code := 404, detail := "Student or Course not found" },
        by simp [register_student, hs, hc]⟩
    | some c =>
      cases hf : db.registrationFindFirst d.student_id d.course_id with
      | some r =>
        exact Or.inl ⟨{ status_code := 400, detail := "Already registered" },
          by simp [register_student, hs, hc, hf]⟩
      | none =>
        refine Or.inr ⟨by simp [hs], by simp [hc], rfl, ?_⟩
        simp only [DB.studentFindUniqueId] at hs
        simp only [DB.courseFindUniqueId] at hc
        simp only [DB.registrationFindFirst] at hf
        simp [register_student, DB.registrationCreate, DB.studentFindUniqueId,
              DB.courseFindUniqueId, DB.registrationFindFirst, hs, hc, hf]

/-- Complete case analysis of `create_student`: either the email is taken and
the store is untouched, or the one new student row is appended and its
transformed record returned. -/
theorem create_student_total (db : DB) (s : StudentCreate) :
    (∃ e, create_student db s = (Except.error e, db)) ∨
    (db.studentFindUniqueEmail s.email = none ∧
     create_student db s =
       (Except.ok
         { id := db.nextStudentId, name := s.name, email := s.email,
           registeredCourses := some
             ((db.registrations.filter (fun r => r.studentId == db.nextStudentId)).map
               (fun r => db.courseFindUniqueId r.courseId)) },
        { db with
            students := db.students ++
              [{ id := db.nextStudentId, name := s.name, email := s.email }],
            nextStudentId := db.nextStudentId + 1 })) := by
  cases hfind : db.studentFindUniqueEmail s.email with
  | some st =>
    exact Or.inl ⟨{ status_code := 400, detail := "Email already registered" },
      by simp [create_student, hfind]⟩
  | none =>
    refine Or.inr ⟨rfl, ?_⟩
    simp [create_student, hfind, DB.studentCreate, transform_student,
          DB.courseFindUniqueId]

/-- A store with one student (id 1) and one course (id 1) and no
registrations, the spec's end-to-end example state. -/
def dbAda : DB :=
  { students := [{ id := 1, name := "Ada", email := "ada@example.com" }],
    courses := [{ id := 1, title := "Algorithms", code := "CS201", units := 3 }],
    registrations := [],
    nextStudentId := 2, nextCourseId := 2, nextRegistrationId := 1, now := 0 }

/-- C1: when both the student and the course exist, registering a pair with no
existing registration row succeeds and appends exactly that one new row, and
registering a pair that already has a row fails with HTTP 400
"Already registered" and leaves the store unchanged. -/
theorem register_once_then_conflict (db : DB) (sid cid : Nat)
    (hs : (db.studentFindUniqueId sid).isSome = true)
    (hc : (db.courseFindUniqueId cid).isSome = true) :
    (db.registrationFindFirst sid cid = none →
      register_student db { student_id := sid, course_id := cid } =
        (Except.ok
          { id := db.nextRegistrationId, studentId := sid, courseId := cid,
            registeredAt := db.now,
            student := db.studentFindUniqueId sid,
            course := db.courseFindUniqueId cid },
         { db with
             registrations := db.registrations ++
               [{ id := db.nextRegistrationId, studentId := sid,
                  courseId := cid, registeredAt := db.now }],
             nextRegistrationId := db.nextRegistrationId + 1 })) ∧
    ((db.registrationFindFirst sid cid).isSome = true →
      register_student db { student_id := sid, course_id := cid } =
        (Except.error { status_code := 400, detail := "Already registered" }, db)) := by
  obtain ⟨st, hst⟩ := Option.isSome_iff_exists.mp hs
  obtain ⟨c, hct⟩ := Option.isSome_iff_exists.mp hc
  constructor
  · intro hf
    simp only [DB.studentFindUniqueId] at hst
    simp only [DB.courseFindUniqueId] at hct
    simp only [DB.registrationFindFirst] at hf
    simp [register_student, DB.registrationCreate, DB.studentFindUniqueId,
          DB.courseFindUniqueId, DB.registrationFindFirst, hst, hct, hf]
  · intro hf2
    obtain ⟨r, hr⟩ := Option.isSome_iff_exists.mp hf2
    simp [register_student, hst, hct, hr]

/-- Witness for C1: in `dbAda` the pair (1, 1) is not yet registered, so
registering it succeeds and appends the one row. -/
theorem register_once_then_conflict_witness :
    register_student dbAda { student_id := 1, course_id := 1 } =
      (Except.ok
        { id := dbAda.nextRegistrationId, studentId := 1, courseId := 1,
          registeredAt := dbAda.now,
          student := dbAda.studentFindUniqueId 1,
          course := dbAda.courseFindUniqueId 1 },
       { dbAda with
           registrations := dbAda.registrations ++
             [{ id := dbAda.nextRegistrationId, studentId := 1,
                courseId := 1, registeredAt := dbAda.now }],
           nextRegistrationId := dbAda.nextRegistrationId + 1 }) :=
  (register_once_then_conflict dbAda 1 1 rfl rfl).1 rfl

/-- C2: when the student lookup or the course lookup misses, registration
fails with HTTP 404 "Student or Course not found" and the store is unchanged
(the duplicate check and the insert are never observed). -/
theorem register_missing_is_404 (db : DB) (d : RegistrationCreate)
    (h : db.studentFindUniqueId d.student_id = none ∨
         db.courseFindUniqueId d.course_id = none) :
    register_student db d =
      (Except.error { status_code := 404, detail := "Student or Course not found" }, db) := by
  rcases h with h | h <;> simp [register_student, h]

/-- Witness for C2: registering in the empty store misses both lookups. -/
theorem register_missing_is_404_witness :
    register_student DB.empty { student_id := 1, course_id := 1 } =
      (Except.error { status_code := 404, detail := "Student or Course not found" }, DB.empty) :=
  register_missing_is_404 DB.empty { student_id := 1, course_id := 1 } (Or.inl rfl)

/-- C3: creating a student whose email is already stored fails with HTTP 400
"Email already registered" and the store is unchanged; creating one with a
fresh email succeeds, appends exactly that one student row, and returns the
persisted record. -/
theorem create_student_conflict_or_inserts (db : DB) (s : StudentCreate) :
    ((db.studentFindUniqueEmail s.email).isSome = true →
      create_student db s =
        (Except.error { status_code := 400, detail := "Email already registered" }, db)) ∧
    (db.studentFindUniqueEmail s.email = none →
      create_student db s =
        (Except.ok
          { id := db.nextStudentId, name := s.name, email := s.email,
            registeredCourses := some
              ((db.registrations.filter (fun r => r.studentId == db.nextStudentId)).map
                (fun r => db.courseFindUniqueId r.courseId)) },
         { db with
             students := db.students ++
               [{ id := db.nextStudentId, name := s.name, email := s.email }],
             nextStudentId := db.nextStudentId + 1 })) := by
  constructor
  · intro h
    obtain ⟨st, hst⟩ := Option.isSome_iff_exists.mp h
    simp [create_student, hst]
  · intro h
    simp [create_student, h, DB.studentCreate, transform_student,
          DB.courseFindUniqueId]

/-- Witness for C3: in `dbAda` the email "ada@example.com" is taken, so a
second student with it is rejected and the store is unchanged. -/
theorem create_student_conflict_or_inserts_witness :
    create_student dbAda { name := "Bob", email := "ada@example.com" } =
      (Except.error { status_code := 400, detail := "Email already registered" }, dbAda) :=
  (create_student_conflict_or_inserts dbAda
    { name := "Bob", email := "ada@example.com" }).1 rfl

/-- C8: course creation is unconditional: for every store state it succeeds,
appends exactly the one new course row (without any uniqueness check on the
code, so also when a stored course already has the same code), and returns the
persisted record. -/
theorem create_course_unconditional (db : DB) (c : CourseCreate) :
    create_course db c =
      (Except.ok { id := db.nextCourseId, title := c.title, code := c.code, units := c.units },
       { db with
           courses := db.courses ++
             [{ id := db.nextCourseId, title := c.title, code := c.code, units := c.units }],
           nextCourseId := db.nextCourseId + 1 }) := rfl

/-- The empty store satisfies the invariant. -/
theorem storeInv_empty : StoreInv DB.empty := by
  refine ⟨?_, ?_, ?_, ?_⟩ <;> simp [regPairsNodup, regRefsExist, idsFresh, DB.empty]

/-- Serving any single request preserves the store invariant. -/
theorem storeInv_step (db : DB) (op : Op) (h : StoreInv db) : StoreInv (stepState db op) := by
  obtain ⟨hnd, href, hsid, hcid⟩ := h
  cases op with
  | listStudents => exact ⟨hnd, href, hsid, hcid⟩
  | listCourses => exact ⟨hnd, href, hsid, hcid⟩
  | createCourse c =>
    show StoreInv (create_course db c).2
    simp only [create_course, DB.courseCreate]
    refine ⟨hnd, ?_, hsid, ?_⟩
    · intro r hr
      obtain ⟨⟨s, hs, hsi⟩, ⟨co, hco, hci⟩⟩ := href r hr
      exact ⟨⟨s, hs, hsi⟩, ⟨co, List.mem_append_left _ hco, hci⟩⟩
    · intro co hco
      rcases List.mem_append.mp hco with hco | hco
      · exact Nat.lt_succ_of_lt (hcid co hco)
      · simp at hco
        subst hco
        exact Nat.lt_succ_self _
  | createStudent s =>
    rcases create_student_total db s with ⟨e, he⟩ | ⟨hmail, he⟩ <;>
      simp only [stepState, he]
    · exact ⟨hnd, href, hsid, hcid⟩
    · refine ⟨hnd, ?_, ?_, hcid⟩
      · intro r hr
        obtain ⟨⟨st, hs, hsi⟩, hcpart⟩ := href r hr
        exact ⟨⟨st, List.mem_append_left _ hs, hsi⟩, hcpart⟩
      · intro st hst
        rcases List.mem_append.mp hst with hst | hst
        · exact Nat.lt_succ_of_lt (hsid st hst)
        · simp at hst
          subst hst
          exact Nat.lt_succ_self _
  | register d =>
    rcases register_student_total db d with ⟨e, he⟩ | ⟨hs, hc, hf, he⟩ <;>
      simp only [stepState, he]
    · exact ⟨hnd, href, hsid, hcid⟩
    · have hnone := List.find?_eq_none.mp hf
      refine ⟨?_, ?_, hsid, hcid⟩
      · simp only [regPairsNodup, List.map_append, List.map_cons, List.map_nil,
                   List.nodup_append]
        refine ⟨hnd, List.nodup_singleton _, ?_⟩
        intro a ha hb
        obtain ⟨r, hr, hkey⟩ := List.mem_map.mp ha
        simp only [List.mem_singleton] at hb
        subst hb
        rw [Prod.mk.injEq] at hkey
        exact (hnone r hr) (by simp [hkey.1, hkey.2])
      · intro r hr
        rcases List.mem_append.mp hr with hr | hr
        · exact href r hr
        · simp only [List.mem_singleton] at hr
          subst hr
          obtain ⟨st, hst⟩ := Option.isSome_iff_exists.mp hs
          obtain ⟨co, hco⟩ := Option.isSome_iff_exists.mp hc
          refine ⟨⟨st, List.mem_of_find?_eq_some hst, ?_⟩,
                  ⟨co, List.mem_of_find?_eq_some hco, ?_⟩⟩
          · simpa using List.find?_some hst
          · simpa using List.find?_some hco

/-- The invariant holds in every reachable store state. -/
theorem storeInv_reachable (db : DB) (h : Reachable db) : StoreInv db := by
  induction h with
  | empty => exact storeInv_empty
  | step op hr ih => exact storeInv_step _ op ih

/-- C4: in every store state reachable from the empty store by a sequence of
requests, the (studentId, courseId) pairs of the registration rows are
pairwise distinct and every registration row references an existing student
and an existing course. -/
theorem reachable_registration_invariants (db : DB) (h : Reachable db) :
    regPairsNodup db ∧ regRefsExist db :=
  ⟨(storeInv_reachable db h).1, (storeInv_reachable db h).2.1⟩

/-- The store after creating a student, creating a course, and registering
the pair, starting from the empty store. -/
def dbRun : DB :=
  stepState (stepState (stepState DB.empty
    (Op.createStudent { name := "Ada", email := "ada@example.com" }))
    (Op.createCourse { title := "Algorithms", code := "CS201", units := 3 }))
    (Op.register { student_id := 1, course_id := 1 })

/-- Witness for C4 at the three-request run. -/
theorem reachable_registration_invariants_witness :
    regPairsNodup dbRun ∧ regRefsExist dbRun :=
  reachable_registration_invariants dbRun
    (Reachable.step (Op.register { student_id := 1, course_id := 1 })
      (Reachable.step (Op.createCourse { title := "Algorithms", code := "CS201", units := 3 })
        (Reachable.step (Op.createStudent { name := "Ada", email := "ada@example.com" })
          Reachable.empty)))

/-- C9: every exposed operation only ever appends to the student and course
tables, so each previously stored student and course row survives unchanged
(there is no update or delete). -/
theorem ops_preserve_existing_rows (db : DB) (op : Op) :
    (∃ t, (stepState db op).students = db.students ++ t) ∧
    (∃ t, (stepState db op).courses = db.courses ++ t) := by
  cases op with
  | createStudent s =>
    rcases create_student_total db s with ⟨e, he⟩ | ⟨hm, he⟩ <;>
      simp only [stepState, he]
    · exact ⟨⟨[], by simp⟩, ⟨[], by simp⟩⟩
    · exact ⟨⟨_, rfl⟩, ⟨[], by simp⟩⟩
  | createCourse c =>
    simp only [stepState, create_course, DB.courseCreate]
    exact ⟨⟨[], by simp⟩, ⟨_, rfl⟩⟩
  | register d =>
    rcases register_student_total db d with ⟨e, he⟩ | ⟨hs, hc, hf, he⟩ <;>
      simp only [stepState, he]
    · exact ⟨⟨[], by simp⟩, ⟨[], by simp⟩⟩
    · exact ⟨⟨[], by simp⟩, ⟨[], by simp⟩⟩
  | listStudents => exact ⟨⟨[], by simp [stepState]⟩, ⟨[], by simp [stepState]⟩⟩
  | listCourses => exact ⟨⟨[], by simp [stepState]⟩, ⟨[], by simp [stepState]⟩⟩

/-- C5: whenever the POST /registrations/ endpoint answers with an error
(validation failure, missing student or course, or duplicate pair), the store
after the request equals the store before it. -/
theorem failed_registration_is_noop (db : DB) (raw : RawRegistrationInput)
    (e : HTTPException) (h : (registrations_endpoint db raw).1 = Except.error e) :
    (registrations_endpoint db raw).2 = db := by
  cases hv : validateRegistrationCreate raw with
  | error e2 => simp [registrations_endpoint, hv]
  | ok d =>
    simp only [registrations_endpoint, hv] at h ⊢
    rcases register_student_total db d with ⟨e2, he⟩ | ⟨hs, hc, hf, he⟩
    · simp [he]
    · rw [he] at h
      simp at h

/-- Witness for C5: a registration against the empty store fails and leaves
the store empty. -/
theorem failed_registration_is_noop_witness :
    (registrations_endpoint DB.empty { student_id := some 1, course_id := some 1 }).2 =
      DB.empty :=
  failed_registration_is_noop DB.empty { student_id := some 1, course_id := some 1 }
    { status_code := 404, detail := "Student or Course not found" } rfl

/-- C10: in any reachable store state, a successful student creation returns
a record whose registeredCourses field is present and is the empty list. -/
theorem new_student_has_empty_courses (db : DB) (s : StudentCreate)
    (out : StudentOut) (db' : DB) (hreach : Reachable db)
    (h : create_student db s = (Except.ok out, db')) :
    out.registeredCourses = some [] := by
  obtain ⟨hnd, href, hsid, hcid⟩ := storeInv_reachable db hreach
  rcases create_student_total db s with ⟨e, he⟩ | ⟨hm, he⟩
  · rw [he] at h
    simp at h
  · rw [he] at h
    simp only [Prod.mk.injEq, Except.ok.injEq] at h
    obtain ⟨h1, h2⟩ := h
    have hfil : db.registrations.filter (fun r => r.studentId == db.nextStudentId) = [] := by
      rw [List.filter_eq_nil_iff]
      intro r hr
      obtain ⟨⟨st, hstm, hsti⟩, _⟩ := href r hr
      have hlt := hsid st hstm
      simp only [beq_iff_eq]
      omega
    simp [← h1, hfil]

/-- Witness for C10: creating the first student in the empty store returns an
empty registeredCourses list. -/
theorem new_student_has_empty_courses_witness :
    ({ id := 1, name := "Ada", email := "ada@example.com",
       registeredCourses := some [] } : StudentOut).registeredCourses = some [] :=
  new_student_has_empty_courses DB.empty { name := "Ada", email := "ada@example.com" }
    { id := 1, name := "Ada", email := "ada@example.com", registeredCourses := some [] }
    { students := [{ id := 1, name := "Ada", email := "ada@example.com" }],
      courses := [], registrations := [], nextStudentId := 2, nextCourseId := 1,
      nextRegistrationId := 1, now := 0 }
    Reachable.empty rfl

/-- Counterexample to C6 as stated: a request with an empty name string and a
well-formed email is accepted by validation (the schema only requires `name`
to be a string), not rejected. -/
theorem empty_name_is_accepted :
    validateStudentCreate { name := some "", email := some "ada@example.com" } =
      Except.ok { name := "", email := "ada@example.com" } := rfl

/-- C6 (amended): a student-creation request is rejected with HTTP 422,
before any data-store call, exactly when the name field is missing, or the
email field is missing or does not match email syntax; an empty name string
is accepted. -/
theorem student_validation_characterization (raw : RawStudentInput) :
    (∃ e, validateStudentCreate raw = Except.error e ∧ e.status_code = 422) ↔
      (raw.name = none ∨ raw.email = none ∨
        ∃ s, raw.email = some s ∧ isValidEmail s = false) := by
  obtain ⟨n, em⟩ := raw
  cases n with
  | none => simp [validateStudentCreate]
  | some nv =>
    cases em with
    | none => simp [validateStudentCreate]
    | some ev =>
      by_cases hv : isValidEmail ev = true
      · simp [validateStudentCreate, hv]
      · simp only [Bool.not_eq_true] at hv
        simp [validateStudentCreate, hv]

/-- The registration rows of one student. -/
def studentRegistrationRows (db : DB) (sid : Nat) : List Registration :=
  db.registrations.filter (fun r => r.studentId == sid)

/-- The course records referenced by one student's registration rows. -/
def registeredCoursesOf (db : DB) (sid : Nat) : List Course :=
  (studentRegistrationRows db sid).filterMap (fun r => db.courseFindUniqueId r.courseId)

/-- Mapping an option-valued function that never misses agrees with mapping
`some` over the successful results. -/
theorem map_eq_map_some_of_isSome {α β : Type} (f : α → Option β) (l : List α)
    (h : ∀ a ∈ l, (f a).isSome = true) :
    l.map f = (l.filterMap f).map some := by
  induction l with
  | nil => rfl
  | cons a t ih =>
    obtain ⟨b, hb⟩ := Option.isSome_iff_exists.mp (h a (List.mem_cons_self a t))
    simp [hb, ih (fun x hx => h x (List.mem_cons_of_mem a hx))]

/-- C7: when every registration row references an existing course (true in
every reachable state), listing students returns exactly one record per
stored student, in table order, and each record's registeredCourses field is
the list of course records referenced by that student's registration rows,
empty when the student has none. -/
theorem list_students_flattens (db : DB)
    (h : ∀ r ∈ db.registrations, (db.courseFindUniqueId r.courseId).isSome = true) :
    list_students db = db.students.map (fun s =>
      { id := s.id, name := s.name, email := s.email,
        registeredCourses := some ((registeredCoursesOf db s.id).map some) }) := by
  unfold list_students DB.studentFindMany
  apply List.map_congr_left
  intro s hs
  have hall : ∀ r ∈ db.registrations.filter (fun r => r.studentId == s.id),
      (db.courseFindUniqueId r.courseId).isSome = true :=
    fun r hr => h r (List.mem_of_mem_filter hr)
  simp only [transform_student, registeredCoursesOf, studentRegistrationRows,
             map_eq_map_some_of_isSome _ _ hall]

/-- A store for listing: two students with distinct emails, one course, and
one registration linking the first student to the course. -/
def dbListing : DB :=
  { students := [{ id := 1, name := "Ada", email := "ada@example.com" },
                 { id := 2, name := "Bob", email := "bob@example.com" }],
    courses := [{ id := 1, title := "Algorithms", code := "CS201", units := 3 }],
    registrations := [{ id := 1, studentId := 1, courseId := 1, registeredAt := 0 }],
    nextStudentId := 3, nextCourseId := 2, nextRegistrationId := 2, now := 0 }

/-- Witness for C7 at `dbListing`: Ada's record carries the one course, Bob's
record carries the empty list. -/
theorem list_students_flattens_witness :
    list_students dbListing = dbListing.students.map (fun s =>
      { id := s.id, name := s.name, email := s.email,
        registeredCourses := some ((registeredCoursesOf dbListing s.id).map some) }) :=
  list_students_flattens dbListing (by decide)
